import Mathlib

/-!
Verification of the PCA9532 LED-dimmer driver (files `PCA9532.h` /
`PCA9532.cpp`) against its natural-language specification.

The driver is embedded shallowly:
* machine bytes (`uint8_t`) are `Nat` with an explicit `% 256` at every
  point where the C++ code truncates (assignment to a `uint8_t` variable,
  passing a value as a `uint8_t` parameter, returning `uint8_t`);
* the private fields of the driver object become the record `PCA9532.Driver`;
* the I2C transport becomes the record `PCA9532.Bus`: a register file
  `regs : Nat → Nat` standing for the registers of the device, a trace
  `writes` of (register address, data byte) pairs in the order the driver
  issued them, and a trace `reads` of register addresses the driver read.
  The 7-bit device address on the wire is stored in the driver but not
  recorded in the trace, since all properties below concern register
  addresses and data bytes only;
* `readReg` takes an extra argument `avail`, the value that the transport method
  `available()` returns after the one-byte request: the source compares it
  with 1 and falls back to `(uint8_t)(-1) = 0xFF` otherwise.
-/

namespace PCA9532

-- Register definitions (PCA9532.h)
def REG_INPUT0 : Nat := 0x00
def REG_INPUT1 : Nat := 0x01
def REG_PSC0 : Nat := 0x02
def REG_PWM0 : Nat := 0x03
def REG_PSC1 : Nat := 0x04
def REG_PWM1 : Nat := 0x05
def REG_LS0 : Nat := 0x06
def REG_LS1 : Nat := 0x07
def REG_LS2 : Nat := 0x08
def REG_LS3 : Nat := 0x09

-- LED selector bit offsets (PCA9532.h)
def BIT_LS_LED3 : Nat := 6
def BIT_LS_LED2 : Nat := 4
def BIT_LS_LED1 : Nat := 2
def BIT_LS_LED0 : Nat := 0
def BIT_LS_LED7 : Nat := 6
def BIT_LS_LED6 : Nat := 4
def BIT_LS_LED5 : Nat := 2
def BIT_LS_LED4 : Nat := 0
def BIT_LS_LED11 : Nat := 6
def BIT_LS_LED10 : Nat := 4
def BIT_LS_LED9 : Nat := 2
def BIT_LS_LED8 : Nat := 0
def BIT_LS_LED15 : Nat := 6
def BIT_LS_LED14 : Nat := 4
def BIT_LS_LED13 : Nat := 2
def BIT_LS_LED12 : Nat := 0

-- LED driver output states (PCA9532.h)
def LS_STATE_OFF : Nat := 0x00
def LS_STATE_ON : Nat := 0x01
def LS_STATE_BLNK0 : Nat := 0x02
def LS_STATE_BLNK1 : Nat := 0x03

/-- The private fields of the driver object (class `PCA9532` in PCA9532.h).
`_wire` models the `TwoWire *` transport reference as an opaque
identifier. -/
structure Driver where
  _regPwm1 : Nat
  _regPwm2 : Nat
  _storedRegLs0 : Nat
  _storedRegLs1 : Nat
  _storedRegLs2 : Nat
  _storedRegLs3 : Nat
  _deviceAddress : Nat
  _wire : Nat
deriving DecidableEq, Repr

/-- The I2C transport together with the register file of the device, as the
driver observes it: `regs` holds the device registers, `writes` the
sequence of (register address, data) transactions issued so far, `reads`
the sequence of register addresses requested so far. -/
structure Bus where
  regs : Nat → Nat
  writes : List (Nat × Nat)
  reads : List Nat

/-- `PCA9532::PCA9532(uint8_t regPwm1, uint8_t regPwm2)`.  The C++
constructor body assigns only `_regPwm1` and `_regPwm2`; the four
`_storedRegLs*` fields, `_deviceAddress` and `_wire` are left
uninitialized, so the embedding takes the pre-construction
storage contents `d` and updates only the two assigned fields. -/
def construct (d : Driver) (regPwm1 regPwm2 : Nat) : Driver :=
  { d with _regPwm1 := regPwm1 % 256, _regPwm2 := regPwm2 % 256 }

/-- `PCA9532::begin(uint8_t deviceAddress, TwoWire *wire)`: stores the
device address and the transport reference (the bus-level `begin()` of
the transport touches no driver field or register). -/
def begin (d : Driver) (deviceAddress wire : Nat) : Driver :=
  { d with _deviceAddress := deviceAddress % 256, _wire := wire }

/-- `PCA9532::writeReg`: one write transaction — the register address
byte then the data byte, both truncated to `uint8_t` at the parameter
boundary.  The device register file takes the new byte. -/
def writeReg (b : Bus) (registerAddress data : Nat) : Bus :=
  { regs := fun a => if a = registerAddress % 256 then data % 256 else b.regs a
    writes := b.writes ++ [(registerAddress % 256, data % 256)]
    reads := b.reads }

/-- `PCA9532::readReg`: sets the register pointer, requests one byte,
and if `available() == 1` returns the byte read (a `uint8_t`), else
returns `-1` coerced to `uint8_t`, i.e. `0xFF`.  Returns the value and
the bus with the read transaction recorded. -/
def readReg (b : Bus) (avail registerAddress : Nat) : Nat × Bus :=
  (if avail = 1 then b.regs (registerAddress % 256) % 256 else 255,
   { b with reads := b.reads ++ [registerAddress % 256] })

/-- `PCA9532::turnOn`: writes the four stored LS bytes back to
LS0..LS3. -/
def turnOn (d : Driver) (b : Bus) : Driver × Bus :=
  let b := writeReg b REG_LS0 d._storedRegLs0
  let b := writeReg b REG_LS1 d._storedRegLs1
  let b := writeReg b REG_LS2 d._storedRegLs2
  let b := writeReg b REG_LS3 d._storedRegLs3
  (d, b)

/-- `PCA9532::turnOff`: for each LS register in order LS0..LS3, reads
the current byte into the corresponding stored field, then writes
`LS_STATE_OFF`.  `a0..a3` are the `available()` results of the transport for
the four reads. -/
def turnOff (d : Driver) (b : Bus) (a0 a1 a2 a3 : Nat) : Driver × Bus :=
  let r0 := readReg b a0 REG_LS0
  let d := { d with _storedRegLs0 := r0.1 }
  let b := writeReg r0.2 REG_LS0 LS_STATE_OFF
  let r1 := readReg b a1 REG_LS1
  let d := { d with _storedRegLs1 := r1.1 }
  let b := writeReg r1.2 REG_LS1 LS_STATE_OFF
  let r2 := readReg b a2 REG_LS2
  let d := { d with _storedRegLs2 := r2.1 }
  let b := writeReg r2.2 REG_LS2 LS_STATE_OFF
  let r3 := readReg b a3 REG_LS3
  let d := { d with _storedRegLs3 := r3.1 }
  let b := writeReg r3.2 REG_LS3 LS_STATE_OFF
  (d, b)

/-- `PCA9532::setPwm(uint8_t regPwm, uint8_t pwm)`: single register
write, no validation of `regPwm`. -/
def setPwm (d : Driver) (b : Bus) (regPwm pwm : Nat) : Driver × Bus :=
  (d, writeReg b regPwm pwm)

/-- `PCA9532::setGrpPwm(uint8_t pwm)`: writes `pwm` to PWM0 then
PWM1. -/
def setGrpPwm (d : Driver) (b : Bus) (pwm : Nat) : Driver × Bus :=
  (d, writeReg (writeReg b REG_PWM0 pwm) REG_PWM1 pwm)

/-- `PCA9532::setBlinking(uint8_t regPsc, uint8_t blinkPeriod)`: single
register write, no validation of `regPsc`. -/
def setBlinking (d : Driver) (b : Bus) (regPsc blinkPeriod : Nat) : Driver × Bus :=
  (d, writeReg b regPsc blinkPeriod)

/-- The byte value of `(uint8_t)(0b11 << lsBit)`. -/
def lsFieldMask (lsBit : Nat) : Nat := Nat.land (3 <<< lsBit) 255

/-- The byte value of `(uint8_t)(~(0b11 << lsBit))`: the mask keeping
the six bits outside the addressed 2-bit field.  Since register bytes
are `< 256`, `prev & ~(0b11 << lsBit)` computed in C++ `int` arithmetic
agrees with `prev &&& lsKeepMask lsBit`. -/
def lsKeepMask (lsBit : Nat) : Nat := 255 ^^^ lsFieldMask lsBit

/-- The byte `setLsState` writes back, from the byte it read:
`newReg = prevReg & ~(0b11 << lsBit); newReg |= (state << lsBit);`
with the final assignment truncated to `uint8_t`. -/
def setLsStateByte (state prevReg lsBit : Nat) : Nat :=
  (Nat.lor (Nat.land prevReg (lsKeepMask lsBit)) (state <<< lsBit)) % 256

/-- `PCA9532::setLsState(uint8_t state, uint8_t regLs, uint8_t lsBit)`:
read-modify-write of one LS register.  `avail` is the `available()`
result of the transport for the read. -/
def setLsState (d : Driver) (b : Bus) (state regLs lsBit avail : Nat) : Driver × Bus :=
  let r := readReg b avail regLs
  (d, writeReg r.2 regLs (setLsStateByte state r.1 lsBit))

/-- `PCA9532::setLsStateAll(uint8_t state)`: builds each LS register
byte by replicating `state` into the four 2-bit fields and writes
LS0..LS3 unconditionally, recomputing the byte for each register with
the bit constants of that register. -/
def setLsStateAll (d : Driver) (b : Bus) (state : Nat) : Driver × Bus :=
  let newReg := (state <<< BIT_LS_LED3 |||
                 state <<< BIT_LS_LED2 |||
                 state <<< BIT_LS_LED1 |||
                 state <<< BIT_LS_LED0) % 256
  let b := writeReg b REG_LS0 newReg
  let newReg := (state <<< BIT_LS_LED7 |||
                 state <<< BIT_LS_LED6 |||
                 state <<< BIT_LS_LED5 |||
                 state <<< BIT_LS_LED4) % 256
  let b := writeReg b REG_LS1 newReg
  let newReg := (state <<< BIT_LS_LED11 |||
                 state <<< BIT_LS_LED10 |||
                 state <<< BIT_LS_LED9 |||
                 state <<< BIT_LS_LED8) % 256
  let b := writeReg b REG_LS2 newReg
  let newReg := (state <<< BIT_LS_LED15 |||
                 state <<< BIT_LS_LED14 |||
                 state <<< BIT_LS_LED13 |||
                 state <<< BIT_LS_LED12) % 256
  let b := writeReg b REG_LS3 newReg
  (d, b)

end PCA9532

open PCA9532

/-- A concrete all-zero driver state, modelling zero-initialized
(static-storage) object memory before the constructor runs. -/
def zeroDriver : Driver := ⟨0, 0, 0, 0, 0, 0, 0, 0⟩

/-- A concrete bus whose LS registers hold distinct bytes, used as a
test fixture. -/
def busA : Bus :=
  { regs := fun a => if a = 6 then 17 else if a = 7 then 34 else
      if a = 8 then 51 else if a = 9 then 68 else 0
    writes := []
    reads := [] }

/-- A concrete bus whose registers all hold zero. -/
def busZero : Bus := { regs := fun _ => 0, writes := [], reads := [] }

/-- A concrete pre-construction storage content whose `_storedRegLs0`
slot holds the garbage byte 5. -/
def dGarbage : Driver := ⟨0, 0, 5, 0, 0, 0, 0, 0⟩

set_option maxRecDepth 8000 in
/-- Helper: at the byte level, for a valid 2-bit field offset and a
2-bit state, the written byte agrees with the previous byte on the six
bits outside the field. -/
theorem setLsStateByte_keep :
    ∀ lsBit : Nat, lsBit = 0 ∨ lsBit = 2 ∨ lsBit = 4 ∨ lsBit = 6 →
    ∀ state : Nat, state < 4 → ∀ prevReg : Nat, prevReg < 256 →
    Nat.land (setLsStateByte state prevReg lsBit) (lsKeepMask lsBit)
      = Nat.land prevReg (lsKeepMask lsBit) := by
  rintro lsBit (rfl | rfl | rfl | rfl) <;> decide

/-- C1: for every channel bit offset in \x7b0,2,4,6\x7d, every state in
\x7b0,1,2,3\x7d, and every prior register byte, a successful
`setLsState` read-modify-write leaves the device register equal to
`setLsStateByte state prev lsBit`, and that byte agrees with the prior
byte on all six bits outside the 2-bit field at the offset:
`newReg &&& ~(0b11<<lsBit) = prevReg &&& ~(0b11<<lsBit)`. -/
theorem setLsState_preserves_other_bits (d : Driver) (b : Bus)
    (regLs lsBit state : Nat)
    (hbit : lsBit = 0 ∨ lsBit = 2 ∨ lsBit = 4 ∨ lsBit = 6)
    (hstate : state < 4) (hreg : regLs < 256) (hprev : b.regs regLs < 256) :
    (setLsState d b state regLs lsBit 1).2.regs regLs
        = setLsStateByte state (b.regs regLs) lsBit ∧
    Nat.land ((setLsState d b state regLs lsBit 1).2.regs regLs) (lsKeepMask lsBit)
        = Nat.land (b.regs regLs) (lsKeepMask lsBit) := by
  have hmod : regLs % 256 = regLs := Nat.mod_eq_of_lt hreg
  have h1 : (setLsState d b state regLs lsBit 1).2.regs regLs
      = setLsStateByte state (b.regs regLs) lsBit := by
    have hb : setLsStateByte state (b.regs regLs) lsBit % 256
        = setLsStateByte state (b.regs regLs) lsBit :=
      Nat.mod_eq_of_lt (Nat.mod_lt _ (by norm_num))
    simp [setLsState, readReg, writeReg, hmod, Nat.mod_eq_of_lt hprev, hb]
  exact ⟨h1, by rw [h1]; exact setLsStateByte_keep lsBit hbit state hstate _ hprev⟩

/-- Witness for C1 at offset 2, state `LS_STATE_ON`, prior byte 17. -/
theorem setLsState_preserves_other_bits_witness :
    ((2 = 0 ∨ 2 = 2 ∨ 2 = 4 ∨ 2 = 6) ∧ 1 < 4 ∧ 6 < 256 ∧ busA.regs 6 < 256) ∧
    ((setLsState zeroDriver busA 1 6 2 1).2.regs 6 = setLsStateByte 1 (busA.regs 6) 2 ∧
     Nat.land ((setLsState zeroDriver busA 1 6 2 1).2.regs 6) (lsKeepMask 2)
       = Nat.land (busA.regs 6) (lsKeepMask 2)) :=
  ⟨by decide,
   setLsState_preserves_other_bits zeroDriver busA 6 2 1 (by decide) (by decide)
     (by decide) (by decide)⟩

/-- C10: the bit-preservation of `setLsState` needs `state ≤ 3`: the
code masks nothing off `state`, and at `state = 4`, `lsBit = 0`, prior
byte `0x00` the written byte is `4`, which differs from the prior byte
on the six bits outside the addressed 2-bit field, corrupting the
neighboring channel field. -/
theorem setLsState_state_four_corrupts :
    busZero.regs REG_LS0 = 0 ∧
    (setLsState zeroDriver busZero 4 REG_LS0 0 1).2.regs REG_LS0 = 4 ∧
    Nat.land ((setLsState zeroDriver busZero 4 REG_LS0 0 1).2.regs REG_LS0) (lsKeepMask 0)
      ≠ Nat.land (busZero.regs REG_LS0) (lsKeepMask 0) := by
  decide

/-- C5: for every state in \x7b0,1,2,3\x7d, `setLsStateAll` issues
exactly four register writes, to 0x06, 0x07, 0x08, 0x09 in that order,
each data byte equal to `state ||| state <<< 2 ||| state <<< 4 |||
state <<< 6`; at `state = LS_STATE_BLNK1` every written byte is
`0b11111111`. -/
theorem setLsStateAll_writes (d : Driver) (b : Bus) (state : Nat)
    (hstate : state < 4) :
    (setLsStateAll d b state).2.writes
      = b.writes ++
        [(REG_LS0, state ||| state <<< 2 ||| state <<< 4 ||| state <<< 6),
         (REG_LS1, state ||| state <<< 2 ||| state <<< 4 ||| state <<< 6),
         (REG_LS2, state ||| state <<< 2 ||| state <<< 4 ||| state <<< 6),
         (REG_LS3, state ||| state <<< 2 ||| state <<< 4 ||| state <<< 6)] ∧
    (state = LS_STATE_BLNK1 →
      (setLsStateAll d b state).2.writes
        = b.writes ++ [(REG_LS0, 255), (REG_LS1, 255), (REG_LS2, 255), (REG_LS3, 255)]) := by
  interval_cases state <;>
    simp [setLsStateAll, writeReg, REG_LS0, REG_LS1, REG_LS2, REG_LS3, LS_STATE_BLNK1,
      BIT_LS_LED0, BIT_LS_LED1, BIT_LS_LED2, BIT_LS_LED3,
      BIT_LS_LED4, BIT_LS_LED5, BIT_LS_LED6, BIT_LS_LED7,
      BIT_LS_LED8, BIT_LS_LED9, BIT_LS_LED10, BIT_LS_LED11,
      BIT_LS_LED12, BIT_LS_LED13, BIT_LS_LED14, BIT_LS_LED15]

/-- Witness for C5 at `state = LS_STATE_BLNK1 = 3` on a concrete bus. -/
theorem setLsStateAll_writes_witness :
    (3 : Nat) < 4 ∧
    ((setLsStateAll zeroDriver busA 3).2.writes
      = busA.writes ++
        [(REG_LS0, 3 ||| 3 <<< 2 ||| 3 <<< 4 ||| 3 <<< 6),
         (REG_LS1, 3 ||| 3 <<< 2 ||| 3 <<< 4 ||| 3 <<< 6),
         (REG_LS2, 3 ||| 3 <<< 2 ||| 3 <<< 4 ||| 3 <<< 6),
         (REG_LS3, 3 ||| 3 <<< 2 ||| 3 <<< 4 ||| 3 <<< 6)] ∧
     ((3 : Nat) = LS_STATE_BLNK1 →
       (setLsStateAll zeroDriver busA 3).2.writes
         = busA.writes ++ [(REG_LS0, 255), (REG_LS1, 255), (REG_LS2, 255), (REG_LS3, 255)])) :=
  ⟨by decide, setLsStateAll_writes zeroDriver busA 3 (by decide)⟩

/-- C8: `setGrpPwm v` issues exactly two register writes, the byte `v`
to PWM0 (0x03) and then the byte `v` to PWM1 (0x05), and afterwards
both PWM registers hold `v`. -/
theorem setGrpPwm_writes (d : Driver) (b : Bus) (v : Nat) (hv : v < 256) :
    (setGrpPwm d b v).2.writes = b.writes ++ [(REG_PWM0, v), (REG_PWM1, v)] ∧
    (setGrpPwm d b v).2.regs REG_PWM0 = v ∧
    (setGrpPwm d b v).2.regs REG_PWM1 = v := by
  simp [setGrpPwm, writeReg, REG_PWM0, REG_PWM1, Nat.mod_eq_of_lt hv]

/-- Witness for C8 at `v = 0xA5`. -/
theorem setGrpPwm_writes_witness :
    (0xA5 : Nat) < 256 ∧
    ((setGrpPwm zeroDriver busA 0xA5).2.writes
        = busA.writes ++ [(REG_PWM0, 0xA5), (REG_PWM1, 0xA5)] ∧
     (setGrpPwm zeroDriver busA 0xA5).2.regs REG_PWM0 = 0xA5 ∧
     (setGrpPwm zeroDriver busA 0xA5).2.regs REG_PWM1 = 0xA5) :=
  ⟨by decide, setGrpPwm_writes zeroDriver busA 0xA5 (by decide)⟩

/-- C7: `readReg` returns the byte read from the device register when
the transport reports exactly one byte available, and returns
`(uint8_t)(-1) = 0xFF` for any other availability count; hence when the
register genuinely holds 0xFF, a successful read and a failed read
return the same value. -/
theorem readReg_result (b : Bus) (registerAddress avail : Nat)
    (haddr : registerAddress < 256) (hbyte : b.regs registerAddress < 256) :
    (avail = 1 → (readReg b avail registerAddress).1 = b.regs registerAddress) ∧
    (avail ≠ 1 → (readReg b avail registerAddress).1 = 255) ∧
    (b.regs registerAddress = 255 →
      (readReg b 1 registerAddress).1 = (readReg b 0 registerAddress).1) := by
  have hmod : registerAddress % 256 = registerAddress := Nat.mod_eq_of_lt haddr
  refine ⟨fun h => ?_, fun h => ?_, fun h => ?_⟩ <;>
    simp [readReg, hmod, Nat.mod_eq_of_lt hbyte, h]

/-- Witness for C7 at register 0x06 of a concrete bus with one byte
available. -/
theorem readReg_result_witness :
    ((6 : Nat) < 256 ∧ busA.regs 6 < 256) ∧
    (((1 : Nat) = 1 → (readReg busA 1 6).1 = busA.regs 6) ∧
     ((1 : Nat) ≠ 1 → (readReg busA 1 6).1 = 255) ∧
     (busA.regs 6 = 255 → (readReg busA 1 6).1 = (readReg busA 0 6).1)) :=
  ⟨by decide, readReg_result busA 6 1 (by decide) (by decide)⟩

/-- C2: when every one of the four reads during `turnOff` succeeds
(availability 1) and the four LS registers hold bytes, `turnOff`
immediately followed by `turnOn`, with no operation in between,
restores each of the four LS registers 0x06..0x09 to the value it held
before `turnOff`. -/
theorem turnOff_turnOn_roundtrip (d : Driver) (b : Bus)
    (h6 : b.regs 6 < 256) (h7 : b.regs 7 < 256)
    (h8 : b.regs 8 < 256) (h9 : b.regs 9 < 256) :
    (turnOn (turnOff d b 1 1 1 1).1 (turnOff d b 1 1 1 1).2).2.regs 6 = b.regs 6 ∧
    (turnOn (turnOff d b 1 1 1 1).1 (turnOff d b 1 1 1 1).2).2.regs 7 = b.regs 7 ∧
    (turnOn (turnOff d b 1 1 1 1).1 (turnOff d b 1 1 1 1).2).2.regs 8 = b.regs 8 ∧
    (turnOn (turnOff d b 1 1 1 1).1 (turnOff d b 1 1 1 1).2).2.regs 9 = b.regs 9 := by
  simp [turnOn, turnOff, readReg, writeReg, REG_LS0, REG_LS1, REG_LS2, REG_LS3,
    LS_STATE_OFF, Nat.mod_eq_of_lt, h6, h7, h8, h9]

/-- Witness for C2 on the concrete bus `busA` whose LS registers hold
17, 34, 51, 68. -/
theorem turnOff_turnOn_roundtrip_witness :
    (busA.regs 6 < 256 ∧ busA.regs 7 < 256 ∧ busA.regs 8 < 256 ∧ busA.regs 9 < 256) ∧
    ((turnOn (turnOff zeroDriver busA 1 1 1 1).1 (turnOff zeroDriver busA 1 1 1 1).2).2.regs 6
        = busA.regs 6 ∧
     (turnOn (turnOff zeroDriver busA 1 1 1 1).1 (turnOff zeroDriver busA 1 1 1 1).2).2.regs 7
        = busA.regs 7 ∧
     (turnOn (turnOff zeroDriver busA 1 1 1 1).1 (turnOff zeroDriver busA 1 1 1 1).2).2.regs 8
        = busA.regs 8 ∧
     (turnOn (turnOff zeroDriver busA 1 1 1 1).1 (turnOff zeroDriver busA 1 1 1 1).2).2.regs 9
        = busA.regs 9) :=
  ⟨by decide,
   turnOff_turnOn_roundtrip zeroDriver busA (by decide) (by decide) (by decide) (by decide)⟩

/-- C6: two consecutive `turnOff` calls (reads succeeding) followed by
`turnOn` leave all four LS registers at 0x00: the second `turnOff`
overwrites the stored bytes with the zeros written by the first, so the
pre-first-`turnOff` contents are not restored. -/
theorem double_turnOff_turnOn_all_off (d : Driver) (b : Bus) :
    ((turnOff (turnOff d b 1 1 1 1).1 (turnOff d b 1 1 1 1).2 1 1 1 1).1._storedRegLs0 = 0 ∧
     (turnOff (turnOff d b 1 1 1 1).1 (turnOff d b 1 1 1 1).2 1 1 1 1).1._storedRegLs1 = 0 ∧
     (turnOff (turnOff d b 1 1 1 1).1 (turnOff d b 1 1 1 1).2 1 1 1 1).1._storedRegLs2 = 0 ∧
     (turnOff (turnOff d b 1 1 1 1).1 (turnOff d b 1 1 1 1).2 1 1 1 1).1._storedRegLs3 = 0) ∧
    ((turnOn (turnOff (turnOff d b 1 1 1 1).1 (turnOff d b 1 1 1 1).2 1 1 1 1).1
        (turnOff (turnOff d b 1 1 1 1).1 (turnOff d b 1 1 1 1).2 1 1 1 1).2).2.regs 6 = 0 ∧
     (turnOn (turnOff (turnOff d b 1 1 1 1).1 (turnOff d b 1 1 1 1).2 1 1 1 1).1
        (turnOff (turnOff d b 1 1 1 1).1 (turnOff d b 1 1 1 1).2 1 1 1 1).2).2.regs 7 = 0 ∧
     (turnOn (turnOff (turnOff d b 1 1 1 1).1 (turnOff d b 1 1 1 1).2 1 1 1 1).1
        (turnOff (turnOff d b 1 1 1 1).1 (turnOff d b 1 1 1 1).2 1 1 1 1).2).2.regs 8 = 0 ∧
     (turnOn (turnOff (turnOff d b 1 1 1 1).1 (turnOff d b 1 1 1 1).2 1 1 1 1).1
        (turnOff (turnOff d b 1 1 1 1).1 (turnOff d b 1 1 1 1).2 1 1 1 1).2).2.regs 9 = 0) := by
  simp [turnOn, turnOff, readReg, writeReg, REG_LS0, REG_LS1, REG_LS2, REG_LS3, LS_STATE_OFF]

/-- C3 counterexample: the constructor body assigns only `_regPwm1` and
`_regPwm2`, so the four stored LS bytes keep whatever the object
storage held before construction; with pre-construction storage whose
`_storedRegLs0` slot holds 5, the constructed driver has
`_storedRegLs0 = 5 ≠ 0`, and a `turnOn` issued before any `turnOff`
writes 5 — not 0x00 — to LS0. -/
theorem construct_leaves_stored_cex :
    (construct dGarbage 3 5)._storedRegLs0 ≠ 0 ∧
    (turnOn (construct dGarbage 3 5) busZero).2.regs REG_LS0 ≠ 0 ∧
    (turnOn (construct dGarbage 3 5) busZero).2.writes = [(6, 5), (7, 0), (8, 0), (9, 0)] := by
  decide

/-- C3 amended: when the object storage is zero-initialized before the
constructor runs (static storage duration, the usual Arduino global),
all four stored LS bytes are 0 after construction, and a `turnOn`
issued before any `turnOff` writes the byte 0x00 to each of the four LS
registers 0x06..0x09. -/
theorem construct_zeroed_storage_turnOn (regPwm1 regPwm2 : Nat) (b : Bus) :
    (construct zeroDriver regPwm1 regPwm2)._storedRegLs0 = 0 ∧
    (construct zeroDriver regPwm1 regPwm2)._storedRegLs1 = 0 ∧
    (construct zeroDriver regPwm1 regPwm2)._storedRegLs2 = 0 ∧
    (construct zeroDriver regPwm1 regPwm2)._storedRegLs3 = 0 ∧
    (turnOn (construct zeroDriver regPwm1 regPwm2) b).2.writes
      = b.writes ++ [(REG_LS0, 0), (REG_LS1, 0), (REG_LS2, 0), (REG_LS3, 0)] := by
  simp [construct, zeroDriver, turnOn, writeReg, REG_LS0, REG_LS1, REG_LS2, REG_LS3]

/-- C4 counterexample: `setPwm` forwards its register argument to the
transport unvalidated, so with register argument 0x10 the driver issues
a write transaction at address 0x10, outside the ten defined addresses
0x00..0x09. -/
theorem setPwm_forwards_address_cex :
    (setPwm zeroDriver busZero 0x10 0).2.writes = [(0x10, 0)] ∧ ¬ (0x10 : Nat) ≤ 0x09 := by
  decide

/-- C4 amended: the operations with fixed register targets — `turnOn`,
`turnOff`, `setGrpPwm`, `setLsStateAll` — only issue transactions at
the constant addresses 0x03, 0x05, 0x06..0x09, all within 0x00..0x09;
`setPwm`, `setBlinking` and `setLsState` forward the caller-supplied
register argument (truncated to a byte) as the transaction address
without validation, so their addresses lie within 0x00..0x09 exactly
when the caller passes such an address. -/
theorem operation_addresses (d : Driver) (b : Bus)
    (regPwm pwm regPsc blinkPeriod state regLs lsBit avail a0 a1 a2 a3 : Nat) :
    (turnOn d b).2.writes
      = b.writes ++ [(REG_LS0, d._storedRegLs0 % 256), (REG_LS1, d._storedRegLs1 % 256),
                     (REG_LS2, d._storedRegLs2 % 256), (REG_LS3, d._storedRegLs3 % 256)] ∧
    (turnOn d b).2.reads = b.reads ∧
    (turnOff d b a0 a1 a2 a3).2.writes
      = b.writes ++ [(REG_LS0, 0), (REG_LS1, 0), (REG_LS2, 0), (REG_LS3, 0)] ∧
    (turnOff d b a0 a1 a2 a3).2.reads = b.reads ++ [REG_LS0, REG_LS1, REG_LS2, REG_LS3] ∧
    (setGrpPwm d b pwm).2.writes = b.writes ++ [(REG_PWM0, pwm % 256), (REG_PWM1, pwm % 256)] ∧
    (setGrpPwm d b pwm).2.reads = b.reads ∧
    List.map Prod.fst (setLsStateAll d b state).2.writes
      = List.map Prod.fst b.writes ++ [REG_LS0, REG_LS1, REG_LS2, REG_LS3] ∧
    (setLsStateAll d b state).2.reads = b.reads ∧
    (setPwm d b regPwm pwm).2.writes = b.writes ++ [(regPwm % 256, pwm % 256)] ∧
    (setPwm d b regPwm pwm).2.reads = b.reads ∧
    (setBlinking d b regPsc blinkPeriod).2.writes
      = b.writes ++ [(regPsc % 256, blinkPeriod % 256)] ∧
    (setBlinking d b regPsc blinkPeriod).2.reads = b.reads ∧
    List.map Prod.fst (setLsState d b state regLs lsBit avail).2.writes
      = List.map Prod.fst b.writes ++ [regLs % 256] ∧
    (setLsState d b state regLs lsBit avail).2.reads = b.reads ++ [regLs % 256] := by
  simp [turnOn, turnOff, setGrpPwm, setLsStateAll, setPwm, setBlinking, setLsState,
    readReg, writeReg, REG_LS0, REG_LS1, REG_LS2, REG_LS3, REG_PWM0, REG_PWM1, LS_STATE_OFF]

/-- C9: only `turnOff` modifies the four stored LS bytes and only
`begin` modifies the stored device address and transport reference —
`turnOn`, `setPwm`, `setGrpPwm`, `setBlinking`, `setLsState` and
`setLsStateAll` return the driver record unchanged, `turnOff` leaves
`_regPwm1`, `_regPwm2`, `_deviceAddress` and `_wire` untouched, `begin`
leaves `_regPwm1`, `_regPwm2` and the four stored LS bytes untouched —
and consequently `turnOn` called twice in a row issues the same four
write transactions each time. -/
theorem driver_state_frame (d : Driver) (b : Bus)
    (regPwm pwm regPsc blinkPeriod state regLs lsBit avail a0 a1 a2 a3
     deviceAddress wire : Nat) :
    (turnOn d b).1 = d ∧
    (setPwm d b regPwm pwm).1 = d ∧
    (setGrpPwm d b pwm).1 = d ∧
    (setBlinking d b regPsc blinkPeriod).1 = d ∧
    (setLsState d b state regLs lsBit avail).1 = d ∧
    (setLsStateAll d b state).1 = d ∧
    ((turnOff d b a0 a1 a2 a3).1._regPwm1 = d._regPwm1 ∧
     (turnOff d b a0 a1 a2 a3).1._regPwm2 = d._regPwm2 ∧
     (turnOff d b a0 a1 a2 a3).1._deviceAddress = d._deviceAddress ∧
     (turnOff d b a0 a1 a2 a3).1._wire = d._wire) ∧
    ((begin d deviceAddress wire)._regPwm1 = d._regPwm1 ∧
     (begin d deviceAddress wire)._regPwm2 = d._regPwm2 ∧
     (begin d deviceAddress wire)._storedRegLs0 = d._storedRegLs0 ∧
     (begin d deviceAddress wire)._storedRegLs1 = d._storedRegLs1 ∧
     (begin d deviceAddress wire)._storedRegLs2 = d._storedRegLs2 ∧
     (begin d deviceAddress wire)._storedRegLs3 = d._storedRegLs3) ∧
    (turnOn (turnOn d b).1 (turnOn d b).2).2.writes
      = b.writes
        ++ [(REG_LS0, d._storedRegLs0 % 256), (REG_LS1, d._storedRegLs1 % 256),
            (REG_LS2, d._storedRegLs2 % 256), (REG_LS3, d._storedRegLs3 % 256)]
        ++ [(REG_LS0, d._storedRegLs0 % 256), (REG_LS1, d._storedRegLs1 % 256),
            (REG_LS2, d._storedRegLs2 % 256), (REG_LS3, d._storedRegLs3 % 256)] := by
  simp [turnOn, turnOff, setPwm, setGrpPwm, setBlinking, setLsState, setLsStateAll,
    begin, readReg, writeReg, REG_LS0, REG_LS1, REG_LS2, REG_LS3, LS_STATE_OFF]
